import Mathlib

/-!
Shallow embedding of the NvFBC capture backend in `src/platform/linux/cuda.cpp`
(namespace `cuda::nvfbc`): the session handle (`handle_t`), the display session
(`display_t`) with its `init` / `reinit` / `snapshot` / `capture` operations,
and the frame-pump pacing update.  Vendor driver calls are modelled by explicit
outcome parameters (one per call site), so every definition is a pure, total
function of the pre-state and the injected driver behaviour.
-/

namespace CudaNvfbc

/-- `platf::capture_e`, the four-way status the capture layer reports. -/
inductive CaptureE where
  | ok
  | reinit
  | error
  | timeout
deriving DecidableEq, Repr

/-- Outcome of one vendor grab call (`nvFBCToCudaGrabFrame` /
`nvFBCToSysGrabFrame`): success with the reported `info.bDirectCapture` bit,
the `NVFBC_ERR_MUST_RECREATE` status, or any other failing status. -/
inductive GrabOutcome where
  | ok (direct : Bool)
  | mustRecreate
  | err
deriving DecidableEq, Repr

/-- Build variant of `cuda.cpp`: compiled without `NVFBC_TOSYS` (CUDA
device-resident delivery) or with it (host-copy delivery). -/
inductive BuildVariant where
  | toCuda
  | toSys
deriving DecidableEq, Repr

/-- State of `cuda::nvfbc::handle_t`: the two lifecycle flag bits of
`handle_flags` (`SESSION_HANDLE`, `SESSION_CAPTURE`) and the `pBuffer`
member (`NULL` modelled as `none`). -/
structure Handle where
  sessionHandle : Bool
  sessionCapture : Bool
  pBuffer : Option Nat
deriving DecidableEq, Repr

/-- `handle_t::make()`: on vendor success returns a handle with
`SESSION_HANDLE` set, `SESSION_CAPTURE` clear, and `pBuffer` at its `NULL`
initializer; on failure returns nothing. -/
def Handle.make (createOk : Bool) : Option Handle :=
  if createOk then some ⟨true, false, none⟩ else none

/-- `handle_t::stop()`: no-op returning 0 when `SESSION_CAPTURE` is clear;
otherwise destroys the capture session (`destroyOk` is the vendor call's
success), clearing the flag and returning 0 on success, returning -1 and
leaving the flag set on failure. -/
def Handle.stop (h : Handle) (destroyOk : Bool) : Handle × Int :=
  if !h.sessionCapture then (h, 0)
  else if destroyOk then ({ h with sessionCapture := false }, 0)
  else (h, -1)

/-- `handle_t::reset()`: returns 0 immediately when `SESSION_HANDLE` is clear;
otherwise calls `stop()` (its return value ignored), then destroys the handle
(a failure there is only logged) and clears `SESSION_HANDLE`, returning 0.
`destroyCaptureOk` is the success of the `nvFBCDestroyCaptureSession` call
that `stop()` may issue. -/
def Handle.reset (h : Handle) (destroyCaptureOk : Bool) : Handle × Int :=
  if !h.sessionHandle then (h, 0)
  else
    let h1 := (h.stop destroyCaptureOk).1
    ({ h1 with sessionHandle := false }, 0)

/-- Folding any further sequence of `reset()` calls (with arbitrary per-call
vendor outcomes) over a handle state. -/
def Handle.resetRun (h : Handle) : List Bool → Handle
  | [] => h
  | ok :: oks => Handle.resetRun (h.reset ok).1 oks

/-- `handle_t::capture(capture_params)`: creates the vendor capture session
(setting `SESSION_CAPTURE` on success) and then runs the variant-specific
setup step; only the `NVFBC_TOSYS` setup writes `pBuffer` (the vendor fills
the pointer passed as `&pBuffer`).  `createOk` / `setupOk` are the two vendor
calls' successes and `setupBuffer` the buffer the `ToSys` setup reports. -/
def Handle.capture (variant : BuildVariant) (h : Handle)
    (createOk setupOk : Bool) (setupBuffer : Nat) : Handle × Int :=
  if !createOk then (h, -1)
  else
    let h1 := { h with sessionCapture := true }
    match variant with
    | .toCuda => if setupOk then (h1, 0) else (h1, -1)
    | .toSys =>
        if setupOk then ({ h1 with pBuffer := some setupBuffer }, 0)
        else (h1, -1)

/-- `NVFBC_TRACKING_*` values used by `display_t::init`; `trackingDefault` is
the zero value left by the aggregate initializer of the session params. -/
inductive TrackingType where
  | trackingDefault
  | trackingScreen
  | trackingOutput
deriving DecidableEq, Repr

/-- The fields of `NVFBC_CREATE_CAPTURE_SESSION_PARAMS` that
`display_t::init` / `display_t::reinit` write (all others are set once in
`init` and never read by the modelled logic). -/
structure CaptureParams where
  pushModel : Bool
  withCursor : Bool
  allowDirectCapture : Bool
  trackingType : TrackingType
  outputId : Nat
  samplingRateMs : Nat
deriving DecidableEq, Repr

/-- One entry of the `NVFBC_GET_STATUS_PARAMS` outputs array: the output id
and its `trackedBox` region. -/
structure OutputInfo where
  dwId : Nat
  boxX : Nat
  boxY : Nat
  boxW : Nat
  boxH : Nat
deriving DecidableEq, Repr, Inhabited

/-- The parts of `NVFBC_GET_STATUS_PARAMS` that `display_t::init` reads:
XRandR availability, the enumerated outputs (`dwOutputNum` is the list
length), and the virtual-desktop `screenSize`. -/
structure StatusParams where
  xrandrAvailable : Bool
  outputs : List OutputInfo
  screenW : Nat
  screenH : Nat
deriving DecidableEq, Repr

/-- State of `cuda::nvfbc::display_t`: geometry inherited from
`platf::display_t`, the pacing interval `delay` (nanoseconds), the
`cursor_visible` flag, the owned session handle, and the stored capture
session parameters. -/
structure Display where
  width : Nat
  height : Nat
  offsetX : Nat
  offsetY : Nat
  envWidth : Nat
  envHeight : Nat
  delay : Nat
  cursorVisible : Bool
  handle : Handle
  captureParams : CaptureParams
deriving DecidableEq, Repr

/-- `display_t::init(display_name, framerate)`, modelled from the point where
the handle was created and `status()` succeeded (`h` and `s` are their
results).  `displayName` is `none` for the empty string and `some n` for a
numeric selector.  An out-of-range or XRandR-unavailable selector leaves
`streamedMonitor = -1` (a logged warning) and capture falls back to
`NVFBC_TRACKING_SCREEN` over the whole virtual desktop; a valid selector
takes that output's `trackedBox` as the capture region.  `cursorInit` stands
for the indeterminate value of the not-yet-written `cursor_visible` member;
`offsetX`/`offsetY` keep the base class's zero value on the fallback path.
The modelled path always completes (the source returns 0 on it). -/
def Display.init (h : Handle) (s : StatusParams) (displayName : Option Int)
    (framerate : Nat) (cursorInit : Bool) : Display :=
  let streamedMonitor : Int :=
    match displayName with
    | none => -1
    | some monitorNr =>
        if s.xrandrAvailable then
          if monitorNr < 0 ∨ (s.outputs.length : Int) ≤ monitorNr then -1
          else monitorNr
        else -1
  let delay := 1000000000 / framerate
  let params0 : CaptureParams :=
    { pushModel := false, withCursor := false, allowDirectCapture := false,
      trackingType := .trackingDefault, outputId := 0,
      samplingRateMs := 1000 / framerate }
  if streamedMonitor ≠ -1 then
    let output := s.outputs.getD streamedMonitor.toNat default
    { width := output.boxW, height := output.boxH,
      offsetX := output.boxX, offsetY := output.boxY,
      envWidth := s.screenW, envHeight := s.screenH,
      delay := delay, cursorVisible := cursorInit, handle := h,
      captureParams := { params0 with
          trackingType := .trackingOutput, outputId := output.dwId } }
  else
    { width := s.screenW, height := s.screenH,
      offsetX := 0, offsetY := 0,
      envWidth := s.screenW, envHeight := s.screenH,
      delay := delay, cursorVisible := cursorInit, handle := h,
      captureParams := { params0 with trackingType := .trackingScreen } }

/-- Result of the non-blocking probe-grab loop in `display_t::reinit`: the
loop either returns out of `reinit` (must-recreate or another grab failure),
breaks with direct capture observed, or exhausts its attempts with the last
grab reporting no direct capture. -/
inductive ProbeResult where
  | probeReinit
  | probeError
  | direct
  | notDirect
deriving DecidableEq, Repr

/-- The `for(int x = 0; x < 3; ++x)` probe loop of `reinit`, folded over the
outcomes of the successive grab calls; also counts how many grabs were
issued.  An empty list is the exhausted loop: the last grab (and hence
`info.bDirectCapture`) reported no direct capture. -/
def probeLoop : List GrabOutcome → ProbeResult × Nat
  | [] => (.notDirect, 0)
  | o :: os =>
    match o with
    | .mustRecreate => (.probeReinit, 1)
    | .err => (.probeError, 1)
    | .ok true => (.direct, 1)
    | .ok false =>
        let r := probeLoop os
        (r.1, r.2 + 1)

/-- Injected vendor behaviour for one `display_t::reinit` call: the success
of the initial `stop()`, of the two calls inside the first
`handle_t::capture`, the outcome the driver gives the `x`-th probe grab, and
the successes of the fallback `stop()`/`capture` pair. -/
structure ReinitDriver where
  stop1Ok : Bool
  create1Ok : Bool
  setup1Ok : Bool
  setup1Buffer : Nat
  probe : Nat → GrabOutcome
  stop2Ok : Bool
  create2Ok : Bool
  setup2Ok : Bool
  setup2Buffer : Nat

/-- Result of a `display_t::reinit` call: the post-state, the returned
`capture_e`, the number of probe grabs issued, and whether the copy-based
fallback (teardown plus rebuild) ran. -/
structure ReinitResult where
  display : Display
  status : CaptureE
  probeGrabs : Nat
  rebuilt : Bool
deriving Repr

/-- The three session-param writes of `reinit`'s `if(cursor)` branch pair:
cursor compositing requests pull delivery with direct capture disabled;
no cursor requests push delivery with direct capture allowed. -/
def cursorParams (p : CaptureParams) (cursor : Bool) : CaptureParams :=
  if cursor then
    { p with pushModel := false, withCursor := true, allowDirectCapture := false }
  else
    { p with pushModel := true, withCursor := false, allowDirectCapture := true }

/-- The three session-param writes of `reinit`'s copy-based fallback: push
model, cursor and direct capture all disabled. -/
def fallbackParams (p : CaptureParams) : CaptureParams :=
  { p with pushModel := false, withCursor := false, allowDirectCapture := false }

@[simp]
lemma cursorParams_pushModel (p : CaptureParams) (c : Bool) :
    (cursorParams p c).pushModel = !c := by
  cases c <;> rfl

@[simp]
lemma cursorParams_withCursor (p : CaptureParams) (c : Bool) :
    (cursorParams p c).withCursor = c := by
  cases c <;> rfl

@[simp]
lemma cursorParams_allowDirectCapture (p : CaptureParams) (c : Bool) :
    (cursorParams p c).allowDirectCapture = !c := by
  cases c <;> rfl

/-- `display_t::reinit(cursor)`: stop any active session (error on failure);
set `cursor_visible` and rewrite the three mutually exclusive session params
from `cursor`; start the session (error on failure); if direct capture was
requested, probe with up to 3 non-blocking grabs — a must-recreate status
returns `reinit` at once, another grab failure returns `error`, an observed
direct capture breaks out — and if the last grab saw no direct capture,
rewrite the params with push model, cursor and direct capture all disabled
and stop/restart the session (error if either fails).  Otherwise return
`ok`. -/
def Display.reinit (variant : BuildVariant) (d : Display) (dr : ReinitDriver)
    (cursor : Bool) : ReinitResult :=
  let s1 := d.handle.stop dr.stop1Ok
  if s1.2 ≠ 0 then ⟨{ d with handle := s1.1 }, .error, 0, false⟩
  else
    let params1 : CaptureParams := cursorParams d.captureParams cursor
    let d1 := { d with
        handle := s1.1, cursorVisible := cursor, captureParams := params1 }
    let c1 := d1.handle.capture variant dr.create1Ok dr.setup1Ok dr.setup1Buffer
    let d2 := { d1 with handle := c1.1 }
    if c1.2 ≠ (0 : Int) then ⟨d2, .error, 0, false⟩
    else if params1.allowDirectCapture then
      let pr := probeLoop [dr.probe 0, dr.probe 1, dr.probe 2]
      match pr.1 with
      | .probeReinit => ⟨d2, .reinit, pr.2, false⟩
      | .probeError => ⟨d2, .error, pr.2, false⟩
      | .direct => ⟨d2, .ok, pr.2, false⟩
      | .notDirect =>
          let params2 := fallbackParams d2.captureParams
          let d3 := { d2 with captureParams := params2 }
          let s2 := d3.handle.stop dr.stop2Ok
          let d4 := { d3 with handle := s2.1 }
          if s2.2 ≠ (0 : Int) then ⟨d4, .error, pr.2, true⟩
          else
            let c2 := d4.handle.capture variant dr.create2Ok dr.setup2Ok
                dr.setup2Buffer
            let d5 := { d4 with handle := c2.1 }
            if c2.2 ≠ (0 : Int) then ⟨d5, .error, pr.2, true⟩
            else ⟨d5, .ok, pr.2, true⟩
    else ⟨d2, .ok, 0, false⟩

/-- The target frame object (`platf::img_t`): its `data` pointer (`NULL` as
`none`) and, for the CUDA variant, the device texture content that
`tex.copy` fills (`none` when nothing was copied yet). -/
structure Img where
  dataPtr : Option Nat
  texData : Option Nat
deriving DecidableEq, Repr

/-- Injected vendor behaviour for one `display_t::snapshot` call: the
behaviour of the `reinit` it may perform, the outcome of its single grab,
the delivered device pointer, and the success of `tex.copy` (CUDA variant
only). -/
structure SnapshotDriver where
  rd : ReinitDriver
  grab : GrabOutcome
  devicePtr : Nat
  copyOk : Bool

/-- Result of a `display_t::snapshot` call: post-state, target frame,
returned status, whether a `reinit` ran first, how many probe grabs that
`reinit` issued, and how many frame grabs this call itself issued. -/
structure SnapshotResult where
  display : Display
  img : Img
  status : CaptureE
  didReinit : Bool
  probeGrabs : Nat
  grabs : Nat
deriving Repr

/-- The grab half of `display_t::snapshot`: one grab call; a must-recreate
status returns `reinit`, another failing status returns `error`; on
success the CUDA variant first copies the delivered device frame into the
image's texture (`error` if the copy fails), and both variants then write
`img->data = handle.pBuffer` and return `ok`. -/
def Display.snapshotGrab (variant : BuildVariant) (d : Display)
    (sd : SnapshotDriver) (img : Img) (didRe : Bool) (pg : Nat) :
    SnapshotResult :=
  match sd.grab with
  | .mustRecreate => ⟨d, img, .reinit, didRe, pg, 1⟩
  | .err => ⟨d, img, .error, didRe, pg, 1⟩
  | .ok _ =>
    match variant with
    | .toCuda =>
        if sd.copyOk then
          ⟨d,
           { img with
               texData := some sd.devicePtr, dataPtr := d.handle.pBuffer },
           .ok, didRe, pg, 1⟩
        else ⟨d, img, .error, didRe, pg, 1⟩
    | .toSys => ⟨d, { img with dataPtr := d.handle.pBuffer }, .ok, didRe, pg, 1⟩

/-- `display_t::snapshot(img, timeout, cursor)`: when the requested cursor
state differs from `cursor_visible`, first `reinit(cursor)` and return its
status unchanged if it is not `ok`; then perform the single grab. -/
def Display.snapshot (variant : BuildVariant) (d : Display)
    (sd : SnapshotDriver) (img : Img) (cursor : Bool) : SnapshotResult :=
  if cursor ≠ d.cursorVisible then
    let r := d.reinit variant sd.rd cursor
    if r.status ≠ .ok then ⟨r.display, img, r.status, true, r.probeGrabs, 0⟩
    else Display.snapshotGrab variant r.display sd img true r.probeGrabs
  else Display.snapshotGrab variant d sd img false 0

/-- Per-iteration inputs of the frame pump loop in `display_t::capture`: the
vendor behaviour of that iteration's `snapshot` and what `snapshot_cb` (the
sink) returns if it is invoked (`none` is the null buffer that ends the
loop). -/
structure IterInput where
  sd : SnapshotDriver
  sinkReturn : Option Img

/-- Observable trace of one `display_t::capture` call: the returned status
(`none` when the supplied iteration list was exhausted with the loop still
running), the per-`snapshot` list of (status, performed-a-reinit) pairs in
call order, and the number of sink invocations. -/
structure CaptureTrace where
  status : Option CaptureE
  snaps : List (CaptureE × Bool)
  sinkCalls : Nat
deriving DecidableEq, Repr

/-- The `while(img)` frame pump loop of `display_t::capture`: each iteration
paces (modelled separately by `paceRun`), calls `snapshot`, and switches on
the status: `reinit`/`error` return immediately, `timeout` sleeps 1 ms and
retries, `ok` hands the frame to the sink, whose null return ends the loop
with `ok`. -/
def Display.captureLoop (variant : BuildVariant) (cursor : Bool) :
    Display → Img → List IterInput → CaptureTrace
  | _, _, [] => ⟨none, [], 0⟩
  | d, img, it :: rest =>
    let r := Display.snapshot variant d it.sd img cursor
    match r.status with
    | .reinit => ⟨some .reinit, [(.reinit, r.didReinit)], 0⟩
    | .error => ⟨some .error, [(.error, r.didReinit)], 0⟩
    | .timeout =>
        let t := Display.captureLoop variant cursor r.display r.img rest
        ⟨t.status, (.timeout, r.didReinit) :: t.snaps, t.sinkCalls⟩
    | .ok =>
        match it.sinkReturn with
        | none => ⟨some .ok, [(.ok, r.didReinit)], 1⟩
        | some img2 =>
            let t := Display.captureLoop variant cursor r.display img2 rest
            ⟨t.status, (.ok, r.didReinit) :: t.snaps, t.sinkCalls + 1⟩

/-- `display_t::capture(snapshot_cb, img, cursor)`: sets
`cursor_visible = !*cursor` on entry (forcing the first `snapshot` to
`reinit`) and runs the pump loop while `img` is non-null; a null initial
image skips the loop and returns `ok`.  The context guard and the exit-time
`handle.reset()` fail-guard do not affect the trace. -/
def Display.capture (variant : BuildVariant) (d : Display) (cursor : Bool)
    (img : Option Img) (iters : List IterInput) : CaptureTrace :=
  let d1 := { d with cursorVisible := !cursor }
  match img with
  | none => ⟨some .ok, [], 0⟩
  | some i => Display.captureLoop variant cursor d1 i iters

/-- The deadline update of one pump iteration (`cuda.cpp` lines 545-553):
after the coarse sleep and the spin wait, the loop executes
`next_frame = now + delay` where `now` is the clock value observed when the
spin exits.  The spin guarantees that value is at least the old deadline, so
an injected fake-clock reading earlier than the deadline is clamped to it
(the fake clock that wakes exactly on the deadline). -/
def paceStep (delay nextFrame now : Nat) : Nat :=
  max now nextFrame + delay

/-- Deadline after running pump iterations whose spin-exit clock readings
are the given list, starting from deadline `nextFrame` (`capture` initializes
it to the entry clock reading). -/
def paceRun (delay : Nat) : Nat → List Nat → Nat
  | nextFrame, [] => nextFrame
  | nextFrame, now :: rest => paceRun delay (paceStep delay nextFrame now) rest

/-- Fake clock that wakes the `i`-th iteration `js[i]` nanoseconds after the
deadline the loop is pacing towards at that point (so the jitters are
exactly the per-iteration oversleeps). -/
def jitterClock (delay : Nat) : Nat → List Nat → List Nat
  | _, [] => []
  | nextFrame, j :: js =>
      (nextFrame + j) :: jitterClock delay (nextFrame + j + delay) js

/-- A concrete capture configuration for instantiating the theorems. -/
def sampleParams : CaptureParams :=
  ⟨false, false, false, .trackingScreen, 0, 16⟩

/-- A concrete display-session state with a live handle. -/
def sampleDisplay : Display :=
  ⟨1920, 1080, 0, 0, 1920, 1080, 16666666, false, ⟨true, true, none⟩,
    sampleParams⟩

/-- A vendor behaviour where every call succeeds and every probe grab reports
direct capture. -/
def sampleDriverDirect : ReinitDriver :=
  ⟨true, true, true, 0, fun _ => .ok true, true, true, true, 0⟩

/-- A vendor behaviour where every call succeeds but no probe grab ever
reports direct capture. -/
def sampleDriverIndirect : ReinitDriver :=
  ⟨true, true, true, 0, fun _ => .ok false, true, true, true, 0⟩

/-- A concrete snapshot driver whose grab succeeds. -/
def sampleSnapDriver : SnapshotDriver := ⟨sampleDriverDirect, .ok true, 42, true⟩

/-- A concrete target frame with no data yet. -/
def sampleImg : Img := ⟨none, none⟩

/-- A vendor behaviour whose second probe grab reports must-recreate. -/
def sampleDriverRecreate : ReinitDriver :=
  ⟨true, true, true, 0, fun i => if i = 0 then .ok false else .mustRecreate,
    true, true, true, 0⟩

/-- A vendor behaviour whose initial stop fails (with a session active this
makes `reinit` return `error`). -/
def sampleDriverStopFail : ReinitDriver :=
  ⟨false, true, true, 0, fun _ => .ok true, true, true, true, 0⟩

/-- A snapshot driver whose inner `reinit` fails at the initial stop. -/
def sampleSnapDriverStopFail : SnapshotDriver :=
  ⟨sampleDriverStopFail, .ok true, 7, true⟩

/-- A snapshot driver whose grab reports must-recreate. -/
def sampleSnapDriverRecreateGrab : SnapshotDriver :=
  ⟨sampleDriverDirect, .mustRecreate, 0, true⟩

/-- A pump iteration whose grab reports must-recreate. -/
def sampleIterRecreate : IterInput := ⟨sampleSnapDriverRecreateGrab, none⟩

/-- A pump iteration whose snapshot succeeds and whose sink asks for more. -/
def sampleIterGood : IterInput := ⟨sampleSnapDriver, some sampleImg⟩

/-- A pump iteration whose snapshot succeeds and whose sink returns the null
buffer, ending the loop. -/
def sampleIterStop : IterInput := ⟨sampleSnapDriver, none⟩

/-- A pump iteration behaves well when its snapshot cannot fail: the grab
succeeds, the copy succeeds in the CUDA variant, and any `reinit` it
triggers has its vendor calls succeed. -/
def goodIter (variant : BuildVariant) (it : IterInput) : Prop :=
  it.sd.rd.stop1Ok = true ∧ it.sd.rd.create1Ok = true ∧
  it.sd.rd.setup1Ok = true ∧ (∃ b, it.sd.grab = .ok b) ∧
  (variant = .toCuda → it.sd.copyOk = true)

@[simp]
lemma fallbackParams_pushModel (p : CaptureParams) :
    (fallbackParams p).pushModel = false := rfl

@[simp]
lemma fallbackParams_withCursor (p : CaptureParams) :
    (fallbackParams p).withCursor = false := rfl

@[simp]
lemma fallbackParams_allowDirectCapture (p : CaptureParams) :
    (fallbackParams p).allowDirectCapture = false := rfl

/-- A successful `stop()` call always returns 0 (no-op or actual destroy). -/
lemma Handle.stop_ok_ret (h : Handle) : (h.stop true).2 = 0 := by
  unfold Handle.stop
  cases h.sessionCapture <;> simp

/-- When both vendor calls succeed, `handle_t::capture` returns 0 and leaves
`SESSION_CAPTURE` set, in either build variant. -/
lemma Handle.capture_ok (variant : BuildVariant) (h : Handle) (b : Nat) :
    (Handle.capture variant h true true b).2 = 0 ∧
    (Handle.capture variant h true true b).1.sessionCapture = true := by
  cases variant <;> simp [Handle.capture]

/-- The session params after `reinit` are the pre-call params (failed initial
stop), the cursor-derived params, or the fallback params. -/
lemma reinit_params_cases (variant : BuildVariant) (d : Display)
    (dr : ReinitDriver) (cursor : Bool) :
    (Display.reinit variant d dr cursor).display.captureParams = d.captureParams ∨
    ((Display.reinit variant d dr cursor).display.captureParams
        = cursorParams d.captureParams cursor) ∨
    ((Display.reinit variant d dr cursor).display.captureParams
        = fallbackParams (cursorParams d.captureParams cursor)) := by
  cases cursor
  · simp only [Display.reinit, cursorParams_allowDirectCapture, Bool.not_false,
      if_true]
    split
    · exact Or.inl rfl
    · split
      · exact Or.inr (Or.inl rfl)
      · split
        · exact Or.inr (Or.inl rfl)
        · exact Or.inr (Or.inl rfl)
        · exact Or.inr (Or.inl rfl)
        · split
          · exact Or.inr (Or.inr rfl)
          · split
            · exact Or.inr (Or.inr rfl)
            · exact Or.inr (Or.inr rfl)
  · simp only [Display.reinit, cursorParams_allowDirectCapture, Bool.not_true,
      Bool.false_eq_true, if_false]
    split
    · exact Or.inl rfl
    · split
      · exact Or.inr (Or.inl rfl)
      · exact Or.inr (Or.inl rfl)

/-- `reinit(cursor=false)` whose first probe grab reports direct capture:
returns `ok` after that one probe grab, keeps direct capture allowed, and
performs no fallback rebuild. -/
lemma reinit_false_direct_ok (variant : BuildVariant) (d : Display)
    (dr : ReinitDriver) (h1 : dr.stop1Ok = true) (h2 : dr.create1Ok = true)
    (h3 : dr.setup1Ok = true) (hp : dr.probe 0 = .ok true) :
    (Display.reinit variant d dr false).status = .ok ∧
    (Display.reinit variant d dr false).display.captureParams.allowDirectCapture
      = true ∧
    (Display.reinit variant d dr false).display.cursorVisible = false ∧
    (Display.reinit variant d dr false).rebuilt = false ∧
    (Display.reinit variant d dr false).probeGrabs = 1 := by
  have hs : (d.handle.stop dr.stop1Ok).2 = 0 := by
    rw [h1]; exact Handle.stop_ok_ret d.handle
  have hc : (Handle.capture variant (d.handle.stop dr.stop1Ok).1 dr.create1Ok
      dr.setup1Ok dr.setup1Buffer).2 = 0 ∧
      (Handle.capture variant (d.handle.stop dr.stop1Ok).1 dr.create1Ok
      dr.setup1Ok dr.setup1Buffer).1.sessionCapture = true := by
    rw [h2, h3]
    exact Handle.capture_ok variant (d.handle.stop dr.stop1Ok).1 dr.setup1Buffer
  simp [Display.reinit, hs, hc.1, hp, probeLoop, cursorParams]

/-- `snapshotGrab` reports the reinit bookkeeping it was given, leaves the
display unchanged, and issues exactly one grab. -/
lemma snapshotGrab_fields (variant : BuildVariant) (d : Display)
    (sd : SnapshotDriver) (img : Img) (didRe : Bool) (pg : Nat) :
    (Display.snapshotGrab variant d sd img didRe pg).didReinit = didRe ∧
    (Display.snapshotGrab variant d sd img didRe pg).probeGrabs = pg ∧
    (Display.snapshotGrab variant d sd img didRe pg).display = d ∧
    (Display.snapshotGrab variant d sd img didRe pg).grabs = 1 := by
  cases hg : sd.grab <;> cases variant <;> cases hc : sd.copyOk <;>
    simp [Display.snapshotGrab, hg, hc]

/-- A `snapshot` whose requested cursor state matches `cursor_visible` goes
straight to the grab, performing no `reinit`. -/
lemma snapshot_same_cursor (variant : BuildVariant) (d : Display)
    (sd : SnapshotDriver) (img : Img) (cursor : Bool)
    (h : cursor = d.cursorVisible) :
    Display.snapshot variant d sd img cursor
      = Display.snapshotGrab variant d sd img false 0 := by
  simp [Display.snapshot, h]

/-- A `snapshot` whose requested cursor state mismatches `cursor_visible`
always performs a `reinit` first. -/
lemma snapshot_mismatch_didReinit (variant : BuildVariant) (d : Display)
    (sd : SnapshotDriver) (img : Img) (cursor : Bool)
    (hne : cursor ≠ d.cursorVisible) :
    (Display.snapshot variant d sd img cursor).didReinit = true := by
  by_cases hr : (Display.reinit variant d sd.rd cursor).status = .ok
  · simp [Display.snapshot, hne, hr,
      (snapshotGrab_fields variant (Display.reinit variant d sd.rd cursor).display
        sd img true (Display.reinit variant d sd.rd cursor).probeGrabs).1]
  · simp [Display.snapshot, hne, hr]

/-- On a successful grab the target frame's `data` is the grabbing handle's
`pBuffer`; on a failed grab the target frame is untouched. -/
lemma snapshotGrab_img (variant : BuildVariant) (d : Display)
    (sd : SnapshotDriver) (img : Img) (didRe : Bool) (pg : Nat) :
    ((Display.snapshotGrab variant d sd img didRe pg).status = .ok →
      (Display.snapshotGrab variant d sd img didRe pg).img.dataPtr
        = d.handle.pBuffer) ∧
    ((Display.snapshotGrab variant d sd img didRe pg).status ≠ .ok →
      (Display.snapshotGrab variant d sd img didRe pg).img = img) := by
  cases hg : sd.grab <;> cases variant <;> cases hc : sd.copyOk <;>
    simp [Display.snapshotGrab, hg, hc]

/-- The display state after a `snapshot` is the pre-state or the state its
inner `reinit` produced. -/
lemma snapshot_display_cases (variant : BuildVariant) (d : Display)
    (sd : SnapshotDriver) (img : Img) (cursor : Bool) :
    (Display.snapshot variant d sd img cursor).display = d ∨
    (Display.snapshot variant d sd img cursor).display
      = (Display.reinit variant d sd.rd cursor).display := by
  by_cases hne : cursor ≠ d.cursorVisible
  · by_cases hr : (Display.reinit variant d sd.rd cursor).status = .ok
    · right
      simp [Display.snapshot, hne, hr,
        (snapshotGrab_fields variant
          (Display.reinit variant d sd.rd cursor).display sd img true
          (Display.reinit variant d sd.rd cursor).probeGrabs).2.2.1]
    · right; simp [Display.snapshot, hne, hr]
  · left
    rw [not_not] at hne
    rw [snapshot_same_cursor variant d sd img cursor hne]
    exact (snapshotGrab_fields variant d sd img false 0).2.2.1

/-- `stop()` never touches `pBuffer`. -/
lemma handle_pBuffer_stop (h : Handle) (ok : Bool) :
    (h.stop ok).1.pBuffer = h.pBuffer := by
  unfold Handle.stop
  cases h.sessionCapture <;> cases ok <;> simp

/-- In the CUDA build variant, `handle_t::capture` never assigns `pBuffer`
(only the `NVFBC_TOSYS` setup does). -/
lemma handle_pBuffer_capture_toCuda (h : Handle) (c1 c2 : Bool) (b : Nat) :
    (Handle.capture .toCuda h c1 c2 b).1.pBuffer = h.pBuffer := by
  cases c1 <;> cases c2 <;> simp [Handle.capture]

/-- In the CUDA build variant, `reinit` preserves `pBuffer` on every path. -/
lemma reinit_pBuffer_toCuda (d : Display) (dr : ReinitDriver) (c : Bool) :
    (Display.reinit .toCuda d dr c).display.handle.pBuffer
      = d.handle.pBuffer := by
  cases c
  · simp only [Display.reinit, cursorParams_allowDirectCapture, Bool.not_false,
      if_true]
    split
    · exact handle_pBuffer_stop d.handle dr.stop1Ok
    · split
      · simp [handle_pBuffer_capture_toCuda, handle_pBuffer_stop]
      · split
        · simp [handle_pBuffer_capture_toCuda, handle_pBuffer_stop]
        · simp [handle_pBuffer_capture_toCuda, handle_pBuffer_stop]
        · simp [handle_pBuffer_capture_toCuda, handle_pBuffer_stop]
        · split
          · simp [handle_pBuffer_capture_toCuda, handle_pBuffer_stop]
          · split
            · simp [handle_pBuffer_capture_toCuda, handle_pBuffer_stop]
            · simp [handle_pBuffer_capture_toCuda, handle_pBuffer_stop]
  · simp only [Display.reinit, cursorParams_allowDirectCapture, Bool.not_true,
      Bool.false_eq_true, if_false]
    split
    · exact handle_pBuffer_stop d.handle dr.stop1Ok
    · split
      · simp [handle_pBuffer_capture_toCuda, handle_pBuffer_stop]
      · simp [handle_pBuffer_capture_toCuda, handle_pBuffer_stop]

/-- `reinit(cursor=true)` with successful vendor calls returns `ok` (no
probing happens) and records the composited state. -/
lemma reinit_true_ok (variant : BuildVariant) (d : Display) (dr : ReinitDriver)
    (h1 : dr.stop1Ok = true) (h2 : dr.create1Ok = true)
    (h3 : dr.setup1Ok = true) :
    (Display.reinit variant d dr true).status = .ok ∧
    (Display.reinit variant d dr true).display.cursorVisible = true := by
  have hs : (d.handle.stop dr.stop1Ok).2 = 0 := by
    rw [h1]; exact Handle.stop_ok_ret d.handle
  have hc : (Handle.capture variant (d.handle.stop dr.stop1Ok).1 dr.create1Ok
      dr.setup1Ok dr.setup1Buffer).2 = 0 := by
    rw [h2, h3]
    exact (Handle.capture_ok variant (d.handle.stop dr.stop1Ok).1
      dr.setup1Buffer).1
  simp [Display.reinit, hs, hc]

/-- A grab that succeeds (with a successful copy in the CUDA variant) makes
`snapshotGrab` return `ok`. -/
lemma snapshotGrab_ok_status (variant : BuildVariant) (d : Display)
    (sd : SnapshotDriver) (img : Img) (didRe : Bool) (pg : Nat)
    (hg : ∃ b, sd.grab = .ok b) (hcopy : variant = .toCuda → sd.copyOk = true) :
    (Display.snapshotGrab variant d sd img didRe pg).status = .ok := by
  obtain ⟨b, hb⟩ := hg
  cases variant
  · simp [Display.snapshotGrab, hb, hcopy rfl]
  · simp [Display.snapshotGrab, hb]

/-- A well-behaved `snapshot(cursor=true)` returns `ok` (reiniting first if
needed) and leaves `cursor_visible` composited. -/
lemma snapshot_good_ok (variant : BuildVariant) (d : Display)
    (sd : SnapshotDriver) (img : Img) (h1 : sd.rd.stop1Ok = true)
    (h2 : sd.rd.create1Ok = true) (h3 : sd.rd.setup1Ok = true)
    (hg : ∃ b, sd.grab = .ok b) (hcopy : variant = .toCuda → sd.copyOk = true) :
    (Display.snapshot variant d sd img true).status = .ok ∧
    (Display.snapshot variant d sd img true).display.cursorVisible = true := by
  by_cases hne : (true : Bool) ≠ d.cursorVisible
  · have hr := reinit_true_ok variant d sd.rd h1 h2 h3
    have heq : Display.snapshot variant d sd img true
        = Display.snapshotGrab variant
            (Display.reinit variant d sd.rd true).display sd img true
            (Display.reinit variant d sd.rd true).probeGrabs := by
      simp [Display.snapshot, hne, hr.1]
    rw [heq]
    refine ⟨snapshotGrab_ok_status variant _ sd img true _ hg hcopy, ?_⟩
    rw [(snapshotGrab_fields variant
      (Display.reinit variant d sd.rd true).display sd img true
      (Display.reinit variant d sd.rd true).probeGrabs).2.2.1]
    exact hr.2
  · rw [not_not] at hne
    rw [snapshot_same_cursor variant d sd img true hne]
    refine ⟨snapshotGrab_ok_status variant d sd img false 0 hg hcopy, ?_⟩
    rw [(snapshotGrab_fields variant d sd img false 0).2.2.1]
    exact hne.symm

/-- The pump loop never reports `timeout` to its caller. -/
lemma captureLoop_no_timeout (variant : BuildVariant) (cursor : Bool) :
    ∀ (iters : List IterInput) (d : Display) (img : Img),
    (Display.captureLoop variant cursor d img iters).status ≠ some .timeout := by
  intro iters
  induction iters with
  | nil => intro d img; simp [Display.captureLoop]
  | cons it rest ih =>
      intro d img
      simp only [Display.captureLoop]
      split
      · simp
      · simp
      · simpa using ih _ _
      · cases hsr : it.sinkReturn
        · simp [hsr]
        · simpa [hsr] using ih _ _

/-- A run of well-behaved iterations whose sinks request further frames until
the sink of iteration `pre.length` returns the null buffer: the loop returns
`ok` after exactly `pre.length + 1` snapshots and sink calls. -/
lemma captureLoop_sink_count (variant : BuildVariant) (pre : List IterInput) :
    ∀ (stopIt : IterInput) (post : List IterInput) (d : Display) (img : Img),
    (∀ it ∈ pre, goodIter variant it) → goodIter variant stopIt →
    (∀ it ∈ pre, ∃ im, it.sinkReturn = some im) → stopIt.sinkReturn = none →
    (Display.captureLoop variant true d img (pre ++ stopIt :: post)).status
      = some .ok ∧
    (Display.captureLoop variant true d img (pre ++ stopIt :: post)).sinkCalls
      = pre.length + 1 ∧
    (Display.captureLoop variant true d img
      (pre ++ stopIt :: post)).snaps.length = pre.length + 1 := by
  induction pre with
  | nil =>
      intro stopIt post d img _ hgs _ hstop
      obtain ⟨hg1, hg2, hg3, hg4, hg5⟩ := hgs
      have hok := snapshot_good_ok variant d stopIt.sd img hg1 hg2 hg3 hg4 hg5
      simp only [List.nil_append, Display.captureLoop, hok.1, hstop]
      simp
  | cons it pre ih =>
      intro stopIt post d img hgood hgs hpre hstop
      obtain ⟨hg1, hg2, hg3, hg4, hg5⟩ := hgood it (List.mem_cons_self it pre)
      have hok := snapshot_good_ok variant d it.sd img hg1 hg2 hg3 hg4 hg5
      obtain ⟨im, hsr⟩ := hpre it (List.mem_cons_self it pre)
      have hrec := ih stopIt post
        (Display.snapshot variant d it.sd img true).display im
        (fun x hx => hgood x (List.mem_cons_of_mem it hx)) hgs
        (fun x hx => hpre x (List.mem_cons_of_mem it hx)) hstop
      simp only [List.cons_append, Display.captureLoop, hok.1, hsr]
      simp [hrec.1, hrec.2.1, hrec.2.2]

/-- C3: `reset()` is idempotent.  For every handle state reachable through the
API (where an active capture session implies a created handle) and every
vendor behaviour: a second `reset()` (and any further sequence of resets)
leaves the state of the first `reset()` unchanged and returns 0, because the
first call cleared `SESSION_HANDLE` (guarding `reset`) and `stop()` is guarded
by `SESSION_CAPTURE`; and when the vendor destroy-capture call succeeds, a
single `reset()` clears both lifecycle flags. -/
theorem reset_idempotent (h : Handle) (ok1 ok2 : Bool) (oks : List Bool)
    (hreach : h.sessionCapture = true → h.sessionHandle = true) :
    ((h.reset ok1).1.reset ok2 = ((h.reset ok1).1, 0)) ∧
    (Handle.resetRun (h.reset ok1).1 (ok2 :: oks) = (h.reset ok1).1) ∧
    (ok1 = true → (h.reset ok1).1.sessionHandle = false ∧
      (h.reset ok1).1.sessionCapture = false) := by
  obtain ⟨sh, sc, pb⟩ := h
  have hstep : ∀ g : Handle, g.sessionHandle = false → ∀ ok, g.reset ok = (g, 0) := by
    intro g hg ok
    simp [Handle.reset, hg]
  have hfix : ((Handle.mk sh sc pb).reset ok1).1.sessionHandle = false := by
    cases sh <;> cases sc <;> cases ok1 <;> simp [Handle.reset, Handle.stop]
  refine ⟨hstep _ hfix ok2, ?_, ?_⟩
  · have hrun : ∀ (oks' : List Bool) (g : Handle), g.sessionHandle = false →
        Handle.resetRun g oks' = g := by
      intro oks'
      induction oks' with
      | nil => intro g hg; rfl
      | cons o os ih =>
          intro g hg
          have := hstep g hg o
          simp [Handle.resetRun, this, hg, ih g hg]
    have := hstep _ hfix ok2
    simp [Handle.resetRun, this]
    exact hrun oks _ (by simpa using hfix)
  · intro hok
    subst hok
    cases sh
    · have : sc = false := by
        by_contra hsc
        have := hreach (by simpa using Bool.of_not_eq_false hsc |>.symm ▸ rfl)
        simp at this
      simp [Handle.reset, this]
    · cases sc <;> simp [Handle.reset, Handle.stop]

/-- C3 witness: a concrete run from a fully live handle. -/
theorem reset_idempotent_witness :
    (((Handle.mk true true none).reset true).1.reset false =
      (((Handle.mk true true none).reset true).1, 0)) ∧
    (Handle.resetRun ((Handle.mk true true none).reset true).1 [false, true] =
      ((Handle.mk true true none).reset true).1) ∧
    (true = true → ((Handle.mk true true none).reset true).1.sessionHandle = false ∧
      ((Handle.mk true true none).reset true).1.sessionCapture = false) :=
  reset_idempotent (Handle.mk true true none) true false [true] (by simp)

/-- C5: a valid numeric selector in `[0, outputCount)` (with output tracking
available) makes `init` select exactly that output's reported region and
track that output; an out-of-range selector, or any selector when XRandR
tracking is unavailable, makes `init` fall back to tracking the entire
screen with full virtual-desktop geometry (and, the modelled path being
total, still succeed). -/
theorem init_output_selection (h : Handle) (s : StatusParams) (n : Int)
    (fr : Nat) (c : Bool) :
    (s.xrandrAvailable = true → 0 ≤ n → n < (s.outputs.length : Int) →
      ∀ hn : n.toNat < s.outputs.length,
      (Display.init h s (some n) fr c).captureParams.trackingType
          = .trackingOutput ∧
      (Display.init h s (some n) fr c).captureParams.outputId
          = (s.outputs.get ⟨n.toNat, hn⟩).dwId ∧
      (Display.init h s (some n) fr c).width = (s.outputs.get ⟨n.toNat, hn⟩).boxW ∧
      (Display.init h s (some n) fr c).height = (s.outputs.get ⟨n.toNat, hn⟩).boxH ∧
      (Display.init h s (some n) fr c).offsetX = (s.outputs.get ⟨n.toNat, hn⟩).boxX ∧
      (Display.init h s (some n) fr c).offsetY = (s.outputs.get ⟨n.toNat, hn⟩).boxY) ∧
    ((n < 0 ∨ (s.outputs.length : Int) ≤ n ∨ s.xrandrAvailable = false) →
      (Display.init h s (some n) fr c).captureParams.trackingType
          = .trackingScreen ∧
      (Display.init h s (some n) fr c).width = s.screenW ∧
      (Display.init h s (some n) fr c).height = s.screenH) := by
  constructor
  · intro hx h0 hlt hn
    have hmon : ¬(n < 0 ∨ (s.outputs.length : Int) ≤ n) := by omega
    have hne : n ≠ -1 := by omega
    have hget : s.outputs.getD n.toNat default = s.outputs.get ⟨n.toNat, hn⟩ := by
      rw [List.getD_eq_getElem?_getD, List.getElem?_eq_getElem hn]
      rfl
    simp only [Display.init, hx, if_true, if_neg hmon, if_pos hne, ne_eq,
      not_false_iff, hget]
    exact ⟨trivial, trivial, trivial, trivial, trivial, trivial⟩
  · intro hcase
    by_cases hx : s.xrandrAvailable
    · rcases hcase with hneg | hbig | hbad
      · have : (if n < 0 ∨ (s.outputs.length : Int) ≤ n then (-1 : Int) else n) = -1 := by
          rw [if_pos (Or.inl hneg)]
        simp only [Display.init, hx, if_true, this, ne_eq, not_true_eq_false,
          if_false, not_not]
        exact ⟨trivial, trivial, trivial⟩
      · have : (if n < 0 ∨ (s.outputs.length : Int) ≤ n then (-1 : Int) else n) = -1 := by
          rw [if_pos (Or.inr hbig)]
        simp only [Display.init, hx, if_true, this, ne_eq, not_true_eq_false,
          if_false, not_not]
        exact ⟨trivial, trivial, trivial⟩
      · rw [hx] at hbad; cases hbad
    · have hx' : s.xrandrAvailable = false := by
        simpa using hx
      simp only [Display.init, hx', if_false, ne_eq, not_true_eq_false,
        Bool.false_eq_true, not_not]
      exact ⟨trivial, trivial, trivial⟩

/-- C5 witness: selector 1 of a two-output system picks the second output's
region; selector 5 falls back to the 300×200 virtual desktop. -/
theorem init_output_selection_witness :
    (Display.init ⟨true, false, none⟩
        (StatusParams.mk true [⟨7, 0, 0, 100, 50⟩, ⟨9, 100, 0, 200, 150⟩] 300 200)
        (some 1) 60 false).captureParams.outputId = 9 ∧
    (Display.init ⟨true, false, none⟩
        (StatusParams.mk true [⟨7, 0, 0, 100, 50⟩, ⟨9, 100, 0, 200, 150⟩] 300 200)
        (some 5) 60 false).width = 300 := by
  refine ⟨?_, ?_⟩
  · have := (init_output_selection ⟨true, false, none⟩
      (StatusParams.mk true [⟨7, 0, 0, 100, 50⟩, ⟨9, 100, 0, 200, 150⟩] 300 200)
      1 60 false).1 rfl (by decide) (by decide) (by decide)
    exact this.2.1
  · have := (init_output_selection ⟨true, false, none⟩
      (StatusParams.mk true [⟨7, 0, 0, 100, 50⟩, ⟨9, 100, 0, 200, 150⟩] 300 200)
      5 60 false).2 (by right; left; decide)
    exact this.2.1

/-- C1 (amended): the frame pump loop does not advance the deadline by
`nextFrameDeadline += frameInterval`; each iteration executes
`next_frame = now + delay` with `now` the spin-exit clock value
(`cuda.cpp:553`).  Consequently, for a run whose iterations wake `js[i]`
nanoseconds after the deadline they paced towards, the final deadline is
`initialDeadline + N * frameInterval + sum js`: per-iteration scheduling
jitter accumulates in the deadline instead of staying within a fixed bound
of `initialDeadline + N * frameInterval`. -/
theorem pace_deadline_accumulates_jitter (delay nf0 : Nat) (js : List Nat) :
    paceRun delay nf0 (jitterClock delay nf0 js)
      = nf0 + js.length * delay + js.sum := by
  induction js generalizing nf0 with
  | nil => simp [paceRun, jitterClock]
  | cons j js ih =>
      have hmax : max (nf0 + j) nf0 = nf0 + j := by omega
      simp only [jitterClock, paceRun, paceStep, hmax, ih,
        List.length_cons, List.sum_cons]
      ring

/-- C1 counterexample: at 60 fps (frame interval 16666666 ns, initial
deadline 0) a fake clock waking each of three iterations exactly 1 ms late
(readings 1000000, 18666666, 36333332, each past the deadline then being
paced towards, as the `jitterClock` equation shows) leaves the deadline at
52999998 ns, which is 3000000 ns beyond `initial + 3 * frameInterval`
= 49999998 — more than the 1 ms jitter tolerance the claim grants, and
growing by another millisecond every further such iteration. -/
theorem pace_deadline_counterexample :
    jitterClock 16666666 0 [1000000, 1000000, 1000000]
      = [1000000, 18666666, 36333332] ∧
    paceRun 16666666 0 [1000000, 18666666, 36333332] = 52999998 ∧
    (0 + 3 * 16666666 : Nat) = 49999998 ∧
    52999998 - 49999998 = 3000000 ∧ (1000000 : Nat) < 3000000 := by
  refine ⟨rfl, rfl, by norm_num, by norm_num, by norm_num⟩

/-- C4: after a completed `reinit(cursor)` from any state satisfying the
mutual-exclusion invariant (which `init`'s zero-initialized params do),
`bWithCursor = true` still implies `bAllowDirectCapture = false`; and
`reinit(true)` immediately followed by a `reinit(false)` whose probe observes
direct capture (all vendor calls succeeding) returns `ok` with
`bAllowDirectCapture` restored to `true`. -/
theorem reinit_cursor_direct_exclusion (variant : BuildVariant) (d : Display)
    (dr dr2 : ReinitDriver) (cursor : Bool)
    (hinv : d.captureParams.withCursor = true →
      d.captureParams.allowDirectCapture = false) :
    ((Display.reinit variant d dr cursor).display.captureParams.withCursor
        = true →
      (Display.reinit variant d dr cursor).display.captureParams.allowDirectCapture
        = false) ∧
    (dr2.stop1Ok = true → dr2.create1Ok = true → dr2.setup1Ok = true →
      dr2.probe 0 = .ok true →
      (Display.reinit variant (Display.reinit variant d dr true).display dr2
          false).status = .ok ∧
      (Display.reinit variant (Display.reinit variant d dr true).display dr2
          false).display.captureParams.allowDirectCapture = true) := by
  constructor
  · rcases reinit_params_cases variant d dr cursor with hcase | hcase | hcase <;>
      rw [hcase]
    · exact hinv
    · cases cursor <;> simp [cursorParams]
    · simp
  · intro h1 h2 h3 hp
    have h := reinit_false_direct_ok variant
      (Display.reinit variant d dr true).display dr2 h1 h2 h3 hp
    exact ⟨h.1, h.2.1⟩

/-- C4 witness: the toggle on a concrete session with an all-successful
driver whose probes report direct capture. -/
theorem reinit_cursor_direct_exclusion_witness :
    (Display.reinit BuildVariant.toCuda sampleDisplay sampleDriverDirect
        true).display.captureParams.allowDirectCapture = false ∧
    (Display.reinit BuildVariant.toCuda
        (Display.reinit BuildVariant.toCuda sampleDisplay sampleDriverDirect
          true).display sampleDriverDirect false).status = CaptureE.ok ∧
    (Display.reinit BuildVariant.toCuda
        (Display.reinit BuildVariant.toCuda sampleDisplay sampleDriverDirect
          true).display sampleDriverDirect
        false).display.captureParams.allowDirectCapture = true :=
  ⟨(reinit_cursor_direct_exclusion BuildVariant.toCuda sampleDisplay
      sampleDriverDirect sampleDriverDirect true (by decide)).1 (by decide),
   ((reinit_cursor_direct_exclusion BuildVariant.toCuda sampleDisplay
      sampleDriverDirect sampleDriverDirect true (by decide)).2 rfl rfl rfl
      rfl).1,
   ((reinit_cursor_direct_exclusion BuildVariant.toCuda sampleDisplay
      sampleDriverDirect sampleDriverDirect true (by decide)).2 rfl rfl rfl
      rfl).2⟩

/-- C2: `reinit(cursor=false)` requesting direct delivery, when all three
probe grabs report no direct capture (all vendor calls succeeding), tears
the session down and rebuilds it with push delivery, cursor compositing and
direct capture all disabled, and returns `ok`; a subsequent `snapshot` with
the same cursor flag performs no `reinit` and no probe grab. -/
theorem reinit_probe_fallback (variant : BuildVariant) (d : Display)
    (dr : ReinitDriver) (h1 : dr.stop1Ok = true) (h2 : dr.create1Ok = true)
    (h3 : dr.setup1Ok = true) (hp : ∀ i, dr.probe i = .ok false)
    (h4 : dr.stop2Ok = true) (h5 : dr.create2Ok = true)
    (h6 : dr.setup2Ok = true) :
    (Display.reinit variant d dr false).status = .ok ∧
    (Display.reinit variant d dr false).probeGrabs = 3 ∧
    (Display.reinit variant d dr false).rebuilt = true ∧
    (Display.reinit variant d dr false).display.captureParams.pushModel = false ∧
    (Display.reinit variant d dr false).display.captureParams.withCursor = false ∧
    (Display.reinit variant d dr false).display.captureParams.allowDirectCapture
      = false ∧
    (∀ (sd : SnapshotDriver) (img : Img),
      ((Display.reinit variant d dr false).display.snapshot variant sd img
          false).didReinit = false ∧
      ((Display.reinit variant d dr false).display.snapshot variant sd img
          false).probeGrabs = 0) := by
  have hs : (d.handle.stop dr.stop1Ok).2 = 0 := by
    rw [h1]; exact Handle.stop_ok_ret d.handle
  have hc : (Handle.capture variant (d.handle.stop dr.stop1Ok).1 dr.create1Ok
      dr.setup1Ok dr.setup1Buffer).2 = 0 := by
    rw [h2, h3]
    exact (Handle.capture_ok variant (d.handle.stop dr.stop1Ok).1
      dr.setup1Buffer).1
  have hs2 : ∀ h : Handle, (h.stop dr.stop2Ok).2 = 0 := by
    intro h; rw [h4]; exact Handle.stop_ok_ret h
  have hc2 : ∀ h : Handle, (Handle.capture variant h dr.create2Ok dr.setup2Ok
      dr.setup2Buffer).2 = 0 := by
    intro h; rw [h5, h6]
    exact (Handle.capture_ok variant h dr.setup2Buffer).1
  have hcv : (Display.reinit variant d dr false).display.cursorVisible = false ∧
      (Display.reinit variant d dr false).status = .ok ∧
      (Display.reinit variant d dr false).probeGrabs = 3 ∧
      (Display.reinit variant d dr false).rebuilt = true ∧
      (Display.reinit variant d dr false).display.captureParams
        = fallbackParams (cursorParams d.captureParams false) := by
    simp [Display.reinit, hs, hc, hp 0, hp 1, hp 2, probeLoop, hs2, hc2]
  refine ⟨hcv.2.1, hcv.2.2.1, hcv.2.2.2.1, ?_, ?_, ?_, ?_⟩
  · rw [hcv.2.2.2.2]; rfl
  · rw [hcv.2.2.2.2]; rfl
  · rw [hcv.2.2.2.2]; rfl
  · intro sd img
    rw [snapshot_same_cursor variant _ sd img false hcv.1.symm]
    have h := snapshotGrab_fields variant
      (Display.reinit variant d dr false).display sd img false 0
    exact ⟨h.1, h.2.1⟩

/-- C2 witness: the fallback on a concrete session whose probes never report
direct capture, followed by a probe-free snapshot. -/
theorem reinit_probe_fallback_witness :
    (Display.reinit BuildVariant.toSys sampleDisplay sampleDriverIndirect
        false).status = CaptureE.ok ∧
    (Display.reinit BuildVariant.toSys sampleDisplay sampleDriverIndirect
        false).probeGrabs = 3 ∧
    (Display.reinit BuildVariant.toSys sampleDisplay sampleDriverIndirect
        false).rebuilt = true ∧
    (Display.reinit BuildVariant.toSys sampleDisplay sampleDriverIndirect
        false).display.captureParams.allowDirectCapture = false ∧
    ((Display.reinit BuildVariant.toSys sampleDisplay sampleDriverIndirect
        false).display.snapshot BuildVariant.toSys sampleSnapDriver sampleImg
        false).didReinit = false := by
  have h := reinit_probe_fallback BuildVariant.toSys sampleDisplay
    sampleDriverIndirect rfl rfl rfl (fun i => rfl) rfl rfl rfl
  exact ⟨h.1, h.2.1, h.2.2.1, h.2.2.2.2.2.1,
    (h.2.2.2.2.2.2 sampleSnapDriver sampleImg).1⟩

/-- C6: a probe grab reporting must-recreate during `reinit`'s direct-capture
probing (after `k` earlier not-direct probes, `k < 3`) makes `reinit` return
`CaptureStatus::Reinit` immediately: exactly `k+1` probe grabs are issued,
no fallback teardown/rebuild runs, and the capture session created for
probing is left active. -/
theorem reinit_probe_must_recreate (variant : BuildVariant) (d : Display)
    (dr : ReinitDriver) (h1 : dr.stop1Ok = true) (h2 : dr.create1Ok = true)
    (h3 : dr.setup1Ok = true) (k : Nat) (hk : k < 3)
    (hbefore : ∀ j, j < k → dr.probe j = .ok false)
    (hkval : dr.probe k = .mustRecreate) :
    (Display.reinit variant d dr false).status = .reinit ∧
    (Display.reinit variant d dr false).probeGrabs = k + 1 ∧
    (Display.reinit variant d dr false).rebuilt = false ∧
    (Display.reinit variant d dr false).display.handle.sessionCapture = true := by
  have hs : (d.handle.stop dr.stop1Ok).2 = 0 := by
    rw [h1]; exact Handle.stop_ok_ret d.handle
  have hc : (Handle.capture variant (d.handle.stop dr.stop1Ok).1 dr.create1Ok
      dr.setup1Ok dr.setup1Buffer).2 = 0 ∧
      (Handle.capture variant (d.handle.stop dr.stop1Ok).1 dr.create1Ok
      dr.setup1Ok dr.setup1Buffer).1.sessionCapture = true := by
    rw [h2, h3]
    exact Handle.capture_ok variant (d.handle.stop dr.stop1Ok).1 dr.setup1Buffer
  interval_cases k
  · simp [Display.reinit, hs, hc.1, hc.2, hkval, probeLoop]
  · simp [Display.reinit, hs, hc.1, hc.2, hbefore 0 (by norm_num), hkval,
      probeLoop]
  · simp [Display.reinit, hs, hc.1, hc.2, hbefore 0 (by norm_num),
      hbefore 1 (by norm_num), hkval, probeLoop]

/-- C6 witness: a concrete driver whose second probe reports must-recreate:
`reinit` returns after two probe grabs with the session still active. -/
theorem reinit_probe_must_recreate_witness :
    (Display.reinit BuildVariant.toCuda sampleDisplay sampleDriverRecreate
        false).status = CaptureE.reinit ∧
    (Display.reinit BuildVariant.toCuda sampleDisplay sampleDriverRecreate
        false).probeGrabs = 2 ∧
    (Display.reinit BuildVariant.toCuda sampleDisplay sampleDriverRecreate
        false).rebuilt = false ∧
    (Display.reinit BuildVariant.toCuda sampleDisplay sampleDriverRecreate
        false).display.handle.sessionCapture = true :=
  reinit_probe_must_recreate BuildVariant.toCuda sampleDisplay
    sampleDriverRecreate rfl rfl rfl 1 (by norm_num)
    (fun j hj => by interval_cases j; rfl) rfl

/-- C8: a `snapshot` whose requested cursor flag differs from the session's
composited state first calls `reinit(cursor)`, and when that `reinit` is not
`ok` returns its status unchanged without grabbing; and `capture` sets
`cursor_visible = !*cursor` on entry, so the first `snapshot` of every
`capture` invocation performs a `reinit`. -/
theorem snapshot_cursor_mismatch_reinit (variant : BuildVariant)
    (d d0 : Display) (sd : SnapshotDriver) (img i0 : Img) (cursor c : Bool)
    (it : IterInput) (rest : List IterInput) :
    (cursor ≠ d.cursorVisible →
      (Display.snapshot variant d sd img cursor).didReinit = true ∧
      ((Display.reinit variant d sd.rd cursor).status ≠ .ok →
        (Display.snapshot variant d sd img cursor).status
          = (Display.reinit variant d sd.rd cursor).status ∧
        (Display.snapshot variant d sd img cursor).grabs = 0)) ∧
    (∃ (st : CaptureE) (tail : List (CaptureE × Bool)),
      (Display.capture variant d0 c (some i0) (it :: rest)).snaps
        = (st, true) :: tail) := by
  constructor
  · intro hne
    refine ⟨snapshot_mismatch_didReinit variant d sd img cursor hne, ?_⟩
    intro hr
    simp [Display.snapshot, hne, hr]
  · have hdid : (Display.snapshot variant { d0 with cursorVisible := !c } it.sd
        i0 c).didReinit = true :=
      snapshot_mismatch_didReinit variant _ it.sd i0 c (by cases c <;> simp)
    simp only [Display.capture, Display.captureLoop]
    split
    · simp only [hdid]
      exact ⟨_, _, rfl⟩
    · simp only [hdid]
      exact ⟨_, _, rfl⟩
    · simp only [hdid]
      exact ⟨_, _, rfl⟩
    · cases hsr : it.sinkReturn <;> simp only [hsr, hdid] <;> exact ⟨_, _, rfl⟩

/-- C8 witness: a cursor mismatch whose `reinit` fails at the initial stop;
the failure status is handed through with no grab issued. -/
theorem snapshot_cursor_mismatch_reinit_witness :
    (Display.snapshot BuildVariant.toCuda sampleDisplay
        sampleSnapDriverStopFail sampleImg true).didReinit = true ∧
    (Display.snapshot BuildVariant.toCuda sampleDisplay
        sampleSnapDriverStopFail sampleImg true).status
      = (Display.reinit BuildVariant.toCuda sampleDisplay
          sampleSnapDriverStopFail.rd true).status ∧
    (Display.snapshot BuildVariant.toCuda sampleDisplay
        sampleSnapDriverStopFail sampleImg true).grabs = 0 := by
  have h := (snapshot_cursor_mismatch_reinit BuildVariant.toCuda sampleDisplay
    sampleDisplay sampleSnapDriverStopFail sampleImg sampleImg true true
    sampleIterStop []).1 (by decide)
  exact ⟨h.1, (h.2 (by decide)).1, (h.2 (by decide)).2⟩

/-- C10: a `snapshot` that returns `ok` has, as its final write, set the
target frame's `data` pointer to the session handle's `pBuffer` in both
build variants; `pBuffer` starts as `NULL` at `handle_t::make` and in the
CUDA variant is never assigned by `handle_t::capture`, so a successful CUDA
snapshot from any `pBuffer = NULL` state leaves `data = NULL`; on `reinit`
and `error` outcomes the target frame is untouched. -/
theorem snapshot_data_from_pBuffer (variant : BuildVariant) (d : Display)
    (sd : SnapshotDriver) (img : Img) (cursor : Bool) :
    ((Display.snapshot variant d sd img cursor).status = .ok →
      (Display.snapshot variant d sd img cursor).img.dataPtr
        = (Display.snapshot variant d sd img cursor).display.handle.pBuffer) ∧
    ((Display.snapshot variant d sd img cursor).status ≠ .ok →
      (Display.snapshot variant d sd img cursor).img = img) ∧
    Handle.make true = some ⟨true, false, none⟩ ∧
    (∀ (h : Handle) (c1 c2 : Bool) (b : Nat),
      (Handle.capture .toCuda h c1 c2 b).1.pBuffer = h.pBuffer) ∧
    (variant = .toCuda → d.handle.pBuffer = none →
      (Display.snapshot variant d sd img cursor).status = .ok →
      (Display.snapshot variant d sd img cursor).img.dataPtr = none) := by
  have hmain : ((Display.snapshot variant d sd img cursor).status = .ok →
      (Display.snapshot variant d sd img cursor).img.dataPtr
        = (Display.snapshot variant d sd img cursor).display.handle.pBuffer) ∧
      ((Display.snapshot variant d sd img cursor).status ≠ .ok →
      (Display.snapshot variant d sd img cursor).img = img) := by
    by_cases hne : cursor ≠ d.cursorVisible
    · by_cases hr : (Display.reinit variant d sd.rd cursor).status = .ok
      · have heq : Display.snapshot variant d sd img cursor
            = Display.snapshotGrab variant
                (Display.reinit variant d sd.rd cursor).display sd img true
                (Display.reinit variant d sd.rd cursor).probeGrabs := by
          simp [Display.snapshot, hne, hr]
        rw [heq]
        have hf := snapshotGrab_fields variant
          (Display.reinit variant d sd.rd cursor).display sd img true
          (Display.reinit variant d sd.rd cursor).probeGrabs
        have hi := snapshotGrab_img variant
          (Display.reinit variant d sd.rd cursor).display sd img true
          (Display.reinit variant d sd.rd cursor).probeGrabs
        rw [hf.2.2.1]
        exact ⟨hi.1, hi.2⟩
      · have heq : Display.snapshot variant d sd img cursor
            = ⟨(Display.reinit variant d sd.rd cursor).display, img,
               (Display.reinit variant d sd.rd cursor).status, true,
               (Display.reinit variant d sd.rd cursor).probeGrabs, 0⟩ := by
          simp [Display.snapshot, hne, hr]
        rw [heq]
        exact ⟨fun hok => absurd hok hr, fun _ => rfl⟩
    · rw [not_not] at hne
      rw [snapshot_same_cursor variant d sd img cursor hne]
      have hf := snapshotGrab_fields variant d sd img false 0
      have hi := snapshotGrab_img variant d sd img false 0
      rw [hf.2.2.1]
      exact ⟨hi.1, hi.2⟩
  refine ⟨hmain.1, hmain.2, rfl,
    fun h c1 c2 b => handle_pBuffer_capture_toCuda h c1 c2 b, ?_⟩
  intro hv hnone hok
  rw [hmain.1 hok]
  subst hv
  rcases snapshot_display_cases .toCuda d sd img cursor with hd | hd
  · rw [hd, hnone]
  · rw [hd, reinit_pBuffer_toCuda, hnone]

/-- C10 witness: a successful CUDA-variant snapshot on a `NULL` `pBuffer`
leaves the image's `data` pointer `NULL`. -/
theorem snapshot_data_from_pBuffer_witness :
    (Display.snapshot BuildVariant.toCuda sampleDisplay sampleSnapDriver
        sampleImg false).status = CaptureE.ok ∧
    (Display.snapshot BuildVariant.toCuda sampleDisplay sampleSnapDriver
        sampleImg false).img.dataPtr = none :=
  ⟨by decide,
   (snapshot_data_from_pBuffer BuildVariant.toCuda sampleDisplay
      sampleSnapDriver sampleImg false).2.2.2.2 rfl rfl (by decide)⟩

/-- C7: a grab reporting must-recreate makes `snapshot` return `reinit`; a
first-iteration `snapshot` status of `reinit` or `error` is returned by
`capture` at once — that one snapshot is the whole trace and the sink is
never invoked; a first-iteration `timeout` continues the loop with one more
recorded snapshot; and neither the pump loop nor `capture` ever returns
`timeout`. -/
theorem capture_error_propagation (variant : BuildVariant) (d d0 : Display)
    (sd : SnapshotDriver) (img i0 : Img) (cursor : Bool) (it : IterInput)
    (rest iters : List IterInput) :
    (cursor = d.cursorVisible → sd.grab = .mustRecreate →
      (Display.snapshot variant d sd img cursor).status = .reinit) ∧
    (∀ st : CaptureE, st = .reinit ∨ st = .error →
      (Display.snapshot variant { d0 with cursorVisible := !cursor } it.sd i0
          cursor).status = st →
      (Display.capture variant d0 cursor (some i0) (it :: rest)).status
        = some st ∧
      (Display.capture variant d0 cursor (some i0) (it :: rest)).snaps
        = [(st, (Display.snapshot variant { d0 with cursorVisible := !cursor }
            it.sd i0 cursor).didReinit)] ∧
      (Display.capture variant d0 cursor (some i0) (it :: rest)).sinkCalls
        = 0) ∧
    ((Display.snapshot variant { d0 with cursorVisible := !cursor } it.sd i0
        cursor).status = .timeout →
      (Display.capture variant d0 cursor (some i0) (it :: rest)).status
        = (Display.captureLoop variant cursor
            (Display.snapshot variant { d0 with cursorVisible := !cursor } it.sd
              i0 cursor).display
            (Display.snapshot variant { d0 with cursorVisible := !cursor } it.sd
              i0 cursor).img rest).status ∧
      (Display.capture variant d0 cursor (some i0) (it :: rest)).snaps.length
        = 1 + (Display.captureLoop variant cursor
            (Display.snapshot variant { d0 with cursorVisible := !cursor } it.sd
              i0 cursor).display
            (Display.snapshot variant { d0 with cursorVisible := !cursor } it.sd
              i0 cursor).img rest).snaps.length) ∧
    (∀ (dl : Display) (im : Img),
      (Display.captureLoop variant cursor dl im iters).status
        ≠ some .timeout ∧
      (Display.capture variant dl cursor (some im) iters).status
        ≠ some .timeout) := by
  refine ⟨?_, ?_, ?_, ?_⟩
  · intro hsame hg
    rw [snapshot_same_cursor variant d sd img cursor hsame]
    simp [Display.snapshotGrab, hg]
  · intro st hst hfirst
    rcases hst with h | h <;> subst h <;>
      simp [Display.capture, Display.captureLoop, hfirst]
  · intro hfirst
    simp [Display.capture, Display.captureLoop, hfirst]
    omega
  · intro dl im
    exact ⟨captureLoop_no_timeout variant cursor iters dl im,
      by simpa [Display.capture] using
        captureLoop_no_timeout variant cursor iters _ im⟩

/-- C7 witness: a concrete run whose only iteration grabs must-recreate:
`snapshot` maps it to `reinit`, `capture` returns it with no sink call, and
no `timeout` is surfaced. -/
theorem capture_error_propagation_witness :
    (Display.snapshot BuildVariant.toCuda sampleDisplay
        sampleSnapDriverRecreateGrab sampleImg false).status
      = CaptureE.reinit ∧
    (Display.capture BuildVariant.toCuda sampleDisplay false (some sampleImg)
        [sampleIterRecreate]).status = some CaptureE.reinit ∧
    (Display.capture BuildVariant.toCuda sampleDisplay false (some sampleImg)
        [sampleIterRecreate]).sinkCalls = 0 ∧
    (Display.captureLoop BuildVariant.toCuda false sampleDisplay sampleImg
        [sampleIterRecreate]).status ≠ some CaptureE.timeout := by
  have h := capture_error_propagation BuildVariant.toCuda sampleDisplay
    sampleDisplay sampleSnapDriverRecreateGrab sampleImg sampleImg false
    sampleIterRecreate [] [sampleIterRecreate]
  refine ⟨h.1 rfl rfl, ?_, ?_, (h.2.2.2 sampleDisplay sampleImg).1⟩
  · exact (h.2.1 CaptureE.reinit (Or.inl rfl) (by decide)).1
  · exact (h.2.1 CaptureE.reinit (Or.inl rfl) (by decide)).2.2

/-- C9: when the sink keeps returning a buffer for the first `pre.length`
delivered frames and returns the null buffer for the next one, and every
snapshot in between succeeds, `capture` invokes the sink exactly
`pre.length + 1` times — once per captured frame — and returns `ok`. -/
theorem capture_sink_termination (variant : BuildVariant) (d : Display)
    (img : Img) (pre : List IterInput) (stopIt : IterInput)
    (post : List IterInput) (hgood : ∀ it ∈ pre, goodIter variant it)
    (hgs : goodIter variant stopIt)
    (hpre : ∀ it ∈ pre, ∃ im, it.sinkReturn = some im)
    (hstop : stopIt.sinkReturn = none) :
    (Display.capture variant d true (some img) (pre ++ stopIt :: post)).status
      = some CaptureE.ok ∧
    (Display.capture variant d true (some img)
      (pre ++ stopIt :: post)).sinkCalls = pre.length + 1 ∧
    (Display.capture variant d true (some img)
      (pre ++ stopIt :: post)).snaps.length = pre.length + 1 := by
  simp only [Display.capture]
  exact captureLoop_sink_count variant pre stopIt post _ img hgood hgs hpre hstop

/-- C9 witness: two frames delivered and accepted, the third sink call
returns the null buffer: `capture` returns `ok` after exactly 3 sink
invocations and 3 snapshots. -/
theorem capture_sink_termination_witness :
    (Display.capture BuildVariant.toCuda sampleDisplay true (some sampleImg)
      ([sampleIterGood, sampleIterGood] ++ sampleIterStop :: [])).status
      = some CaptureE.ok ∧
    (Display.capture BuildVariant.toCuda sampleDisplay true (some sampleImg)
      ([sampleIterGood, sampleIterGood] ++ sampleIterStop :: [])).sinkCalls
      = 3 ∧
    (Display.capture BuildVariant.toCuda sampleDisplay true (some sampleImg)
      ([sampleIterGood, sampleIterGood] ++ sampleIterStop :: [])).snaps.length
      = 3 := by
  have h := capture_sink_termination BuildVariant.toCuda sampleDisplay
    sampleImg [sampleIterGood, sampleIterGood] sampleIterStop []
    (fun it hit => by
      have heq : it = sampleIterGood := by simpa using hit
      rw [heq]
      exact ⟨rfl, rfl, rfl, ⟨true, rfl⟩, fun _ => rfl⟩)
    ⟨rfl, rfl, rfl, ⟨true, rfl⟩, fun _ => rfl⟩
    (fun it hit => by
      have heq : it = sampleIterGood := by simpa using hit
      rw [heq]
      exact ⟨sampleImg, rfl⟩)
    rfl
  exact ⟨h.1, by simpa using h.2.1, by simpa using h.2.2⟩

end CudaNvfbc
